import Mathlib

/-!
Verification development for the air-guitar score-tracking backend
(`src/backend/database.py`, `src/backend/schemas.py`, `src/backend/main.py`).

The backend is a small CRUD service: it persists `Score` and `PlayHistory`
rows, and serves a leaderboard, a per-player history and per-player
statistics computed on each request.  We embed the data model and the four
request handlers shallowly: the database is a pair of lists of rows plus
surrogate-id counters, machine integers are `Int`, Python floats and
timestamps are `Rat`, and each handler is an explicit state-passing
function returning `Except` for the error path.
-/

namespace AirGuitar

/-- A row of the `scores` table (`database.py`, class `Score`).
`played_at` models the timestamp as a rational number. -/
structure Score where
  id : Nat
  player_id : String
  score : Int
  max_combo : Int
  perfect_count : Int
  great_count : Int
  miss_count : Int
  played_at : Rat
deriving DecidableEq, Repr

/-- A row of the `play_history` table (`database.py`, class `PlayHistory`). -/
structure PlayHistory where
  id : Nat
  player_id : String
  score : Int
  max_combo : Int
  duration_seconds : Rat
  played_at : Rat
deriving DecidableEq, Repr

/-- The relational store: the two tables plus the surrogate-id counters the
store uses to assign `id` on insert. -/
structure Db where
  scores : List Score
  histories : List PlayHistory
  nextScoreId : Nat
  nextHistoryId : Nat
deriving DecidableEq, Repr

/-- A validated score-submission body (`schemas.py`, `ScoreSubmit`). -/
structure ScoreSubmit where
  player_id : String
  score : Int
  max_combo : Int
  perfect_count : Int
  great_count : Int
  miss_count : Int
deriving DecidableEq, Repr

/-- A raw (wire-level) score-submission body before validation: every field
may be absent.  `ScoreSubmit` marks all six fields required (`Field(...)`). -/
structure RawScoreSubmit where
  player_id : Option String
  score : Option Int
  max_combo : Option Int
  perfect_count : Option Int
  great_count : Option Int
  miss_count : Option Int
deriving DecidableEq, Repr

/-- The field constraints of `ScoreSubmit` (`schemas.py` lines 6-12):
`player_id` has `min_length=1, max_length=50`, every numeric field has
`ge=0`. -/
def validScoreSubmit (s : ScoreSubmit) : Bool :=
  decide (1 ≤ s.player_id.length) && decide (s.player_id.length ≤ 50) &&
  decide (0 ≤ s.score) && decide (0 ≤ s.max_combo) &&
  decide (0 ≤ s.perfect_count) && decide (0 ≤ s.great_count) &&
  decide (0 ≤ s.miss_count)

/-- An error surfaced to the caller as a client (422) response, carrying
field-level detail, as pydantic produces for `ScoreSubmit` and FastAPI for
`Query` bounds. -/
inductive ApiError where
  | validationError (detail : String)
deriving DecidableEq, Repr

/-- Pydantic parsing of a raw body into `ScoreSubmit`: every field is
required, then the field constraints are checked. -/
def parseScoreSubmit (r : RawScoreSubmit) : Except ApiError ScoreSubmit :=
  match r.player_id, r.score, r.max_combo,
        r.perfect_count, r.great_count, r.miss_count with
  | some pid, some sc, some mc, some pc, some gc, some ms =>
    let s : ScoreSubmit :=
      { player_id := pid, score := sc, max_combo := mc,
        perfect_count := pc, great_count := gc, miss_count := ms }
    if validScoreSubmit s then .ok s else .error (.validationError "value out of range")
  | _, _, _, _, _, _ => .error (.validationError "field required")

/-- One entry of the leaderboard response (`schemas.py`, `LeaderboardResponse`). -/
structure LeaderboardEntry where
  rank : Nat
  player_id : String
  score : Int
  max_combo : Int
  played_at : Rat
deriving DecidableEq, Repr

/-- The statistics response (`schemas.py`, `StatsResponse`); the two float
fields are modelled as rationals. -/
structure StatsResponse where
  total_plays : Nat
  total_score : Int
  average_score : Rat
  best_score : Int
  best_combo : Int
  perfect_rate : Rat
deriving DecidableEq, Repr

/-- Python `round(x, 2)`: round to 2 decimal places, ties to even
(banker's rounding), modelled exactly on rationals. -/
def round2 (q : Rat) : Rat :=
  let n : Rat := q * 100
  let f : Int := Rat.floor n
  let frac : Rat := n - f
  let r : Int :=
    if frac < 1/2 then f
    else if 1/2 < frac then f + 1
    else if f % 2 = 0 then f else f + 1
  (r : Rat) / 100

/-- Python `max` over a nonempty list of integers (the `[]` case is never
reached by the code, which guards on emptiness first). -/
def maxIntList : List Int → Int
  | [] => 0
  | x :: xs => xs.foldl max x

/-- FastAPI `Query(default, ge=1, le=100)` on `limit`: absent means the
default, a present value outside `[1, 100]` is a client error. -/
def parseLimit (v : Option Int) (dflt : Nat) : Except ApiError Nat :=
  match v with
  | none => .ok dflt
  | some n =>
    if 1 ≤ n ∧ n ≤ 100 then .ok n.toNat
    else .error (.validationError "limit out of range")

/-- The `ORDER BY score DESC` order on the `scores` table; ties keep the underlying
storage order (SQLite returns them in rowid order). -/
def sortScoresDesc (l : List Score) : List Score :=
  List.insertionSort (fun a b => b.score ≤ a.score) l

/-- The `ORDER BY played_at DESC` order on the `play_history` table. -/
def sortHistoriesDesc (l : List PlayHistory) : List PlayHistory :=
  List.insertionSort (fun a b => b.played_at ≤ a.played_at) l

/-- The `GET /api/leaderboard` core (`main.py`, `get_leaderboard`): all Score
rows ordered by score descending, first `limit`, ranked by position. -/
def getLeaderboard (db : Db) (limit : Nat) : List LeaderboardEntry :=
  (((sortScoresDesc db.scores).take limit).enum).map fun p =>
    { rank := p.1 + 1, player_id := p.2.player_id, score := p.2.score,
      max_combo := p.2.max_combo, played_at := p.2.played_at }

/-- The `GET /api/leaderboard` handler with query-parameter validation,
in state-passing form (the returned `Db` is the state after the request). -/
def getLeaderboardH (db : Db) (lim : Option Int) :
    Except ApiError (List LeaderboardEntry) × Db :=
  match parseLimit lim 10 with
  | .error e => (.error e, db)
  | .ok L => (.ok (getLeaderboard db L), db)

/-- The `GET /api/history/{player_id}` core (`main.py`, `get_player_history`):
the player's PlayHistory rows ordered by `played_at` descending, limited. -/
def getPlayerHistoryList (db : Db) (pid : String) (limit : Nat) : List PlayHistory :=
  (sortHistoriesDesc (db.histories.filter fun h => h.player_id == pid)).take limit

/-- The `GET /api/history/{player_id}` handler with query-parameter
validation, in state-passing form. -/
def getPlayerHistoryH (db : Db) (pid : String) (lim : Option Int) :
    Except ApiError (List PlayHistory) × Db :=
  match parseLimit lim 20 with
  | .error e => (.error e, db)
  | .ok L => (.ok (getPlayerHistoryList db pid L), db)

/-- The player's Score rows (`db.query(Score).filter(Score.player_id == player_id)`). -/
def statsScores (db : Db) (pid : String) : List Score :=
  db.scores.filter fun s => s.player_id == pid

/-- The player's PlayHistory rows. -/
def statsHistories (db : Db) (pid : String) : List PlayHistory :=
  db.histories.filter fun h => h.player_id == pid

/-- Sum of `perfect_count + great_count + miss_count` over Score rows. -/
def totalHits (l : List Score) : Int :=
  (l.map fun s => s.perfect_count + s.great_count + s.miss_count).sum

/-- Sum of `perfect_count` over Score rows. -/
def perfectHits (l : List Score) : Int :=
  (l.map Score.perfect_count).sum

/-- The all-zero statistics result returned when the player has no Score rows. -/
def zeroStats : StatsResponse :=
  { total_plays := 0, total_score := 0, average_score := 0,
    best_score := 0, best_combo := 0, perfect_rate := 0 }

/-- The `GET /api/stats/{player_id}` core (`main.py`, `get_player_stats`). -/
def getPlayerStats (db : Db) (pid : String) : StatsResponse :=
  let scores := statsScores db pid
  if scores = [] then zeroStats
  else
    { total_plays := (statsHistories db pid).length
      total_score := (scores.map Score.score).sum
      average_score := round2 (if scores = [] then 0 else
        ((scores.map Score.score).sum : Rat) / (scores.length : Rat))
      best_score := maxIntList (scores.map Score.score)
      best_combo := maxIntList (scores.map Score.max_combo)
      perfect_rate := round2 (if 0 < totalHits scores then
        (perfectHits scores : Rat) / (totalHits scores : Rat) * 100 else 0) }

/-- The `GET /api/stats/{player_id}` handler: the path parameter is an
arbitrary string, there is no validation and no error path. -/
def getPlayerStatsH (db : Db) (pid : String) :
    Except ApiError StatsResponse × Db :=
  (.ok (getPlayerStats db pid), db)

/-- Wrap a fully-populated submission as a raw body (every field present). -/
def rawOf (s : ScoreSubmit) : RawScoreSubmit :=
  { player_id := some s.player_id, score := some s.score,
    max_combo := some s.max_combo, perfect_count := some s.perfect_count,
    great_count := some s.great_count, miss_count := some s.miss_count }

/-- The `POST /api/scores` handler (`main.py`, `submit_score`): validate the
body, then insert one Score row with a fresh id and `played_at := now`. -/
def submitScoreH (db : Db) (now : Rat) (raw : RawScoreSubmit) :
    Except ApiError Score × Db :=
  match parseScoreSubmit raw with
  | .error e => (.error e, db)
  | .ok s =>
    let row : Score :=
      { id := db.nextScoreId, player_id := s.player_id, score := s.score,
        max_combo := s.max_combo, perfect_count := s.perfect_count,
        great_count := s.great_count, miss_count := s.miss_count,
        played_at := now }
    (.ok row, { db with scores := db.scores ++ [row],
                        nextScoreId := db.nextScoreId + 1 })

/-! ### Helper lemmas -/

/-- The computable `Rat.floor` agrees with the floor of the `FloorRing`. -/
lemma ratFloor_eq_intFloor (q : Rat) : Rat.floor q = ⌊q⌋ := by
  rw [Rat.floor_def, Rat.floor_def']

/-- Rounding zero gives zero. -/
lemma round2_zero : round2 0 = 0 := by
  norm_num [round2, ratFloor_eq_intFloor]

lemma foldl_max_mem (l : List Int) (x : Int) :
    l.foldl max x = x ∨ l.foldl max x ∈ l := by
  induction l generalizing x with
  | nil => exact Or.inl rfl
  | cons a t ih =>
    rcases ih (max x a) with h | h
    · rcases max_choice x a with hm | hm
      · left
        rw [List.foldl_cons, h, hm]
      · right
        rw [List.foldl_cons, h, hm]
        exact List.mem_cons_self a t
    · exact Or.inr (List.mem_cons_of_mem _ h)

lemma le_foldl_max (l : List Int) (x : Int) :
    x ≤ l.foldl max x ∧ ∀ y ∈ l, y ≤ l.foldl max x := by
  induction l generalizing x with
  | nil => simp
  | cons a t ih =>
    obtain ⟨h1, h2⟩ := ih (max x a)
    refine ⟨le_trans (le_max_left x a) h1, ?_⟩
    intro y hy
    rcases List.mem_cons.mp hy with rfl | hy
    · exact le_trans (le_max_right x y) h1
    · exact h2 y hy

/-- The value of `maxIntList` on a nonempty list is a member and an upper bound:
it is the maximum. -/
lemma maxIntList_spec (l : List Int) (h : l ≠ []) :
    maxIntList l ∈ l ∧ ∀ x ∈ l, x ≤ maxIntList l := by
  match l with
  | [] => exact absurd rfl h
  | a :: t =>
    constructor
    · rcases foldl_max_mem t a with h1 | h1
      · simp [maxIntList, h1]
      · exact List.mem_cons_of_mem _ (by simpa [maxIntList] using h1)
    · intro x hx
      obtain ⟨h1, h2⟩ := le_foldl_max t a
      rcases List.mem_cons.mp hx with rfl | hx
      · simpa [maxIntList] using h1
      · simpa [maxIntList] using h2 x hx

/-- The zero-score short circuit of `get_player_stats`. -/
lemma getPlayerStats_of_empty (db : Db) (pid : String)
    (h : statsScores db pid = []) : getPlayerStats db pid = zeroStats := by
  simp [getPlayerStats, h]

/-! ### Concrete databases used by the witnesses -/

/-- The Score row of the spec's alice scenario. -/
def aliceScore : Score :=
  { id := 1, player_id := "alice", score := 100, max_combo := 10,
    perfect_count := 5, great_count := 3, miss_count := 2, played_at := 0 }

/-- Store holding only the alice Score row (no PlayHistory). -/
def dbAlice : Db :=
  { scores := [aliceScore], histories := [], nextScoreId := 2, nextHistoryId := 1 }

/-- Store holding the alice Score row plus two alice PlayHistory rows
(the two collections diverge: 1 Score row, 2 PlayHistory rows). -/
def dbMixed : Db :=
  { scores := [aliceScore]
    histories :=
      [ { id := 1, player_id := "alice", score := 90, max_combo := 9,
          duration_seconds := 30, played_at := 0 },
        { id := 2, player_id := "alice", score := 80, max_combo := 8,
          duration_seconds := 31, played_at := 1 } ]
    nextScoreId := 2, nextHistoryId := 3 }

/-- Store holding two carol PlayHistory rows and no Score row at all. -/
def dbHist : Db :=
  { scores := []
    histories :=
      [ { id := 1, player_id := "carol", score := 10, max_combo := 2,
          duration_seconds := 30, played_at := 0 },
        { id := 2, player_id := "carol", score := 20, max_combo := 3,
          duration_seconds := 40, played_at := 1 } ]
    nextScoreId := 1, nextHistoryId := 3 }

/-- The spec's bob scenario: three bob Score rows with scores 50, 80, 30. -/
def dbBob : Db :=
  { scores :=
      [ { id := 1, player_id := "bob", score := 50, max_combo := 8,
          perfect_count := 0, great_count := 0, miss_count := 0, played_at := 0 },
        { id := 2, player_id := "bob", score := 80, max_combo := 9,
          perfect_count := 0, great_count := 0, miss_count := 0, played_at := 1 },
        { id := 3, player_id := "bob", score := 30, max_combo := 5,
          perfect_count := 0, great_count := 0, miss_count := 0, played_at := 2 } ]
    histories := [], nextScoreId := 4, nextHistoryId := 1 }

/-- The empty store. -/
def emptyDb : Db :=
  { scores := [], histories := [], nextScoreId := 1, nextHistoryId := 1 }

/-! ### Claim C1 -/

/-- The statistics the non-empty branch of `get_player_stats` must satisfy:
`total_plays` counts PlayHistory rows, `total_score` sums `Score.score`,
`best_score` and `best_combo` are the maxima of `Score.score` and
`Score.max_combo`, and `average_score` is the rounded mean over Score rows. -/
def statsC1Spec (db : Db) (pid : String) : Prop :=
  (getPlayerStats db pid).total_plays = (statsHistories db pid).length ∧
  (getPlayerStats db pid).total_score = ((statsScores db pid).map Score.score).sum ∧
  ((getPlayerStats db pid).best_score ∈ (statsScores db pid).map Score.score ∧
    ∀ x ∈ (statsScores db pid).map Score.score, x ≤ (getPlayerStats db pid).best_score) ∧
  ((getPlayerStats db pid).best_combo ∈ (statsScores db pid).map Score.max_combo ∧
    ∀ x ∈ (statsScores db pid).map Score.max_combo, x ≤ (getPlayerStats db pid).best_combo) ∧
  (getPlayerStats db pid).average_score =
    round2 ((((statsScores db pid).map Score.score).sum : Rat) /
      ((statsScores db pid).length : Rat))

/-- C1: for every player with at least one Score row, `total_plays` is the
count of that player's PlayHistory rows (a source distinct from the Score
rows), `total_score` is the sum of `Score.score`, `best_score` is the
maximum `Score.score`, `best_combo` is the maximum `Score.max_combo`, and
`average_score` is `total_score` divided by the number of Score rows,
rounded to 2 decimals. -/
theorem stats_aggregates_from_scores_and_history (db : Db) (pid : String)
    (h : statsScores db pid ≠ []) : statsC1Spec db pid := by
  have hmapS : (statsScores db pid).map Score.score ≠ [] := by
    simpa using h
  have hmapC : (statsScores db pid).map Score.max_combo ≠ [] := by
    simpa using h
  obtain ⟨hs1, hs2⟩ := maxIntList_spec _ hmapS
  obtain ⟨hc1, hc2⟩ := maxIntList_spec _ hmapC
  refine ⟨?_, ?_, ⟨?_, ?_⟩, ⟨?_, ?_⟩, ?_⟩
  · simp [getPlayerStats, h]
  · simp [getPlayerStats, h]
  · simpa [getPlayerStats, h] using hs1
  · intro x hx
    have := hs2 x hx
    simpa [getPlayerStats, h] using this
  · simpa [getPlayerStats, h] using hc1
  · intro x hx
    have := hc2 x hx
    simpa [getPlayerStats, h] using this
  · simp [getPlayerStats, h]

/-- Witness for C1 at `dbMixed`/"alice": one Score row but two PlayHistory
rows, so `total_plays = 2` while the Score-derived statistics come from the
single Score row. -/
theorem stats_aggregates_witness :
    statsScores dbMixed "alice" ≠ [] ∧ statsC1Spec dbMixed "alice" ∧
    (getPlayerStats dbMixed "alice").total_plays = 2 ∧
    (getPlayerStats dbMixed "alice").best_score = 100 := by
  have hne : statsScores dbMixed "alice" ≠ [] := by
    simp [statsScores, dbMixed, aliceScore]
  refine ⟨hne, stats_aggregates_from_scores_and_history dbMixed "alice" hne, ?_, ?_⟩ <;>
    simp [getPlayerStats, statsScores, statsHistories, dbMixed, aliceScore,
      maxIntList]

/-! ### Claim C2 -/

/-- C2: for every player with zero Score rows the statistics result is the
all-zero record, regardless of the player's PlayHistory rows. -/
theorem stats_zero_when_no_scores (db : Db) (pid : String)
    (h : statsScores db pid = []) : getPlayerStats db pid = zeroStats :=
  getPlayerStats_of_empty db pid h

/-- Witness for C2 at `dbHist`/"carol": carol has two PlayHistory rows and
no Score row, and the statistics are the all-zero record. -/
theorem stats_zero_when_no_scores_witness :
    statsScores dbHist "carol" = [] ∧
    (statsHistories dbHist "carol").length = 2 ∧
    getPlayerStats dbHist "carol" = zeroStats := by
  have h : statsScores dbHist "carol" = [] := by simp [statsScores, dbHist]
  exact ⟨h, by simp [statsHistories, dbHist],
    stats_zero_when_no_scores dbHist "carol" h⟩

/-! ### Claim C3 -/

/-- C3: for every player with at least one Score row, `perfect_rate` is
100 × (sum of `perfect_count`) / (sum of `perfect_count + great_count +
miss_count`), rounded to 2 decimals, and `0.0` when the denominator is
zero. -/
theorem perfect_rate_formula (db : Db) (pid : String)
    (h : statsScores db pid ≠ []) :
    (getPlayerStats db pid).perfect_rate =
      if 0 < totalHits (statsScores db pid) then
        round2 (100 * (perfectHits (statsScores db pid) : Rat) /
          (totalHits (statsScores db pid) : Rat))
      else 0 := by
  simp only [getPlayerStats]
  rw [if_neg h]
  dsimp only
  by_cases hT : 0 < totalHits (statsScores db pid)
  · rw [if_pos hT, if_pos hT]
    congr 1
    ring
  · rw [if_neg hT, if_neg hT, round2_zero]

/-- Witness for C3: the spec's alice scenario (5 perfect, 3 great, 2 miss)
gives `perfect_rate = 50`. -/
theorem perfect_rate_formula_witness :
    statsScores dbAlice "alice" ≠ [] ∧
    (getPlayerStats dbAlice "alice").perfect_rate =
      (if 0 < totalHits (statsScores dbAlice "alice") then
        round2 (100 * (perfectHits (statsScores dbAlice "alice") : Rat) /
          (totalHits (statsScores dbAlice "alice") : Rat))
      else 0) ∧
    (getPlayerStats dbAlice "alice").perfect_rate = 50 := by
  have hne : statsScores dbAlice "alice" ≠ [] := by
    simp [statsScores, dbAlice, aliceScore]
  refine ⟨hne, perfect_rate_formula dbAlice "alice" hne, ?_⟩
  simp [getPlayerStats, statsScores, statsHistories, dbAlice, aliceScore,
    totalHits, perfectHits]
  norm_num [round2, ratFloor_eq_intFloor]

/-! ### Claim C4 -/

/-- What the leaderboard response must satisfy for limit `L`: at most `L`
entries; the sorted list is a permutation of all Score rows; entries are in
descending score order; the `i`-th entry carries rank `i + 1` (0-based `i`,
so ranks are contiguous from 1) and the data of the `i`-th row of the
sorted order. -/
def leaderboardC4Spec (db : Db) (L : Nat) : Prop :=
  (getLeaderboard db L).length ≤ L ∧
  (sortScoresDesc db.scores).Perm db.scores ∧
  List.Pairwise (fun a b => b.score ≤ a.score) (getLeaderboard db L) ∧
  ∀ i (hi : i < (getLeaderboard db L).length),
    ((getLeaderboard db L).get ⟨i, hi⟩).rank = i + 1 ∧
    ∃ hj : i < (sortScoresDesc db.scores).length,
      ((getLeaderboard db L).get ⟨i, hi⟩).player_id =
        ((sortScoresDesc db.scores).get ⟨i, hj⟩).player_id ∧
      ((getLeaderboard db L).get ⟨i, hi⟩).score =
        ((sortScoresDesc db.scores).get ⟨i, hj⟩).score ∧
      ((getLeaderboard db L).get ⟨i, hi⟩).max_combo =
        ((sortScoresDesc db.scores).get ⟨i, hj⟩).max_combo ∧
      ((getLeaderboard db L).get ⟨i, hi⟩).played_at =
        ((sortScoresDesc db.scores).get ⟨i, hj⟩).played_at

/-- The descending-score order used by the leaderboard is sorted output. -/
lemma sortScoresDesc_sorted (l : List Score) :
    List.Sorted (fun a b => b.score ≤ a.score) (sortScoresDesc l) := by
  haveI : IsTotal Score (fun a b => b.score ≤ a.score) :=
    ⟨fun a b => le_total b.score a.score⟩
  haveI : IsTrans Score (fun a b => b.score ≤ a.score) :=
    ⟨fun _ _ _ h1 h2 => le_trans h2 h1⟩
  exact List.sorted_insertionSort _ l

/-- C4: for every store and every valid limit `L`, the leaderboard returns
the first `L` rows of all Score rows ordered by score descending (at most
`L` entries), the `i`-th returned entry has rank `i + 1`, so ranks are
contiguous and strictly increasing from 1. -/
theorem leaderboard_ranked_desc (db : Db) (L : Nat)
    (_h1 : 1 ≤ L) (_h2 : L ≤ 100) : leaderboardC4Spec db L := by
  refine ⟨?_, List.perm_insertionSort _ _, ?_, ?_⟩
  · simp [getLeaderboard, List.length_take]
  · have hs : List.Pairwise (fun a b : Score => b.score ≤ a.score)
        ((sortScoresDesc db.scores).take L) :=
      (sortScoresDesc_sorted db.scores).sublist (List.take_sublist L _)
    rw [List.pairwise_iff_getElem] at hs ⊢
    intro i j hi hj hij
    have hi2 : i < ((sortScoresDesc db.scores).take L).length := by
      simpa [getLeaderboard] using hi
    have hj2 : j < ((sortScoresDesc db.scores).take L).length := by
      simpa [getLeaderboard] using hj
    have := hs i j hi2 hj2 hij
    simpa [getLeaderboard] using this
  · intro i hi
    have hi2 : i < ((sortScoresDesc db.scores).take L).length := by
      simpa [getLeaderboard] using hi
    have hj : i < (sortScoresDesc db.scores).length :=
      lt_of_lt_of_le hi2 (by simp)
    refine ⟨?_, hj, ?_, ?_, ?_, ?_⟩ <;>
      simp [getLeaderboard, List.getElem_take]

/-- Witness for C4: the spec's bob scenario, three scores 50/80/30 and
limit 2, whose leaderboard is rank 1 with score 80 then rank 2 with
score 50. -/
theorem leaderboard_ranked_desc_witness :
    (1 ≤ 2 ∧ 2 ≤ 100) ∧ leaderboardC4Spec dbBob 2 ∧
    (getLeaderboard dbBob 2).map (fun e => (e.rank, e.score)) =
      [(1, 80), (2, 50)] := by
  refine ⟨by decide, leaderboard_ranked_desc dbBob 2 (by decide) (by decide), ?_⟩
  simp [getLeaderboard, sortScoresDesc, dbBob, List.insertionSort,
    List.orderedInsert, List.enum, List.enumFrom]

/-! ### Claim C5 -/

/-- C5: a submission whose score, max_combo or any judgment count is
negative, or whose player_id is empty or longer than 50 characters, fails
with a validation error and leaves the store exactly unchanged. -/
theorem submit_invalid_rejected (db : Db) (now : Rat) (s : ScoreSubmit)
    (h : s.score < 0 ∨ s.max_combo < 0 ∨ s.perfect_count < 0 ∨
      s.great_count < 0 ∨ s.miss_count < 0 ∨
      s.player_id.length = 0 ∨ 50 < s.player_id.length) :
    (∃ d, (submitScoreH db now (rawOf s)).1 = .error (.validationError d)) ∧
    (submitScoreH db now (rawOf s)).2 = db := by
  have hv : validScoreSubmit s = false := by
    rw [Bool.eq_false_iff]
    intro hT
    simp only [validScoreSubmit, Bool.and_eq_true, decide_eq_true_eq] at hT
    obtain ⟨⟨⟨⟨⟨⟨a1, a2⟩, a3⟩, a4⟩, a5⟩, a6⟩, a7⟩ := hT
    rcases h with h | h | h | h | h | h | h <;> omega
  constructor
  · exact ⟨"value out of range", by simp [submitScoreH, parseScoreSubmit, rawOf, hv]⟩
  · simp [submitScoreH, parseScoreSubmit, rawOf, hv]

/-- A submission with a negative score, used to witness C5. -/
def negScoreSubmit : ScoreSubmit :=
  { player_id := "dave", score := -1, max_combo := 0,
    perfect_count := 0, great_count := 0, miss_count := 0 }

/-- Witness for C5: submitting a negative score over `dbAlice` fails with a
validation error and leaves the store unchanged. -/
theorem submit_invalid_rejected_witness :
    (negScoreSubmit.score < 0 ∨ negScoreSubmit.max_combo < 0 ∨
      negScoreSubmit.perfect_count < 0 ∨ negScoreSubmit.great_count < 0 ∨
      negScoreSubmit.miss_count < 0 ∨ negScoreSubmit.player_id.length = 0 ∨
      50 < negScoreSubmit.player_id.length) ∧
    (∃ d, (submitScoreH dbAlice 7 (rawOf negScoreSubmit)).1 =
      .error (.validationError d)) ∧
    (submitScoreH dbAlice 7 (rawOf negScoreSubmit)).2 = dbAlice := by
  have h : negScoreSubmit.score < 0 ∨ negScoreSubmit.max_combo < 0 ∨
      negScoreSubmit.perfect_count < 0 ∨ negScoreSubmit.great_count < 0 ∨
      negScoreSubmit.miss_count < 0 ∨ negScoreSubmit.player_id.length = 0 ∨
      50 < negScoreSubmit.player_id.length := by
    left
    decide
  exact ⟨h, submit_invalid_rejected dbAlice 7 negScoreSubmit h⟩

/-! ### Claim C6 (corrected) -/

/-- A raw submission body omitting `perfect_count` but otherwise valid. -/
def rawMissingPerfect : RawScoreSubmit :=
  { player_id := some "alice", score := some 100, max_combo := some 10,
    perfect_count := none, great_count := some 3, miss_count := some 2 }

/-- Counterexample to C6 as stated: a submission omitting `perfect_count`
does NOT succeed — `ScoreSubmit` marks all three counts required
(`Field(..., ge=0)`), so the submission is rejected and nothing is stored;
the count is never defaulted to 0. -/
theorem submit_omitted_count_cex :
    submitScoreH emptyDb 0 rawMissingPerfect =
      (.error (.validationError "field required"), emptyDb) ∧
    ¬ ∃ (row : Score) (db2 : Db),
        submitScoreH emptyDb 0 rawMissingPerfect = (.ok row, db2) := by
  refine ⟨rfl, ?_⟩
  rintro ⟨row, db2, hEq⟩
  have : (submitScoreH emptyDb 0 rawMissingPerfect).1 = .ok row := by
    rw [hEq]
  rw [show submitScoreH emptyDb 0 rawMissingPerfect =
    (.error (.validationError "field required"), emptyDb) from rfl] at this
  simp at this

/-- C6 amended: a score submission that omits `perfect_count`,
`great_count` or `miss_count` is rejected with a validation error and the
store is unchanged (the counts are required fields of the submission
schema; the storage column default of 0 is not exercised through the
submission endpoint). -/
theorem submit_omitted_count_rejected (db : Db) (now : Rat)
    (raw : RawScoreSubmit)
    (h : raw.perfect_count = none ∨ raw.great_count = none ∨
      raw.miss_count = none) :
    (∃ d, (submitScoreH db now raw).1 = .error (.validationError d)) ∧
    (submitScoreH db now raw).2 = db := by
  obtain ⟨p, sc, mc, pc, gc, ms⟩ := raw
  refine ⟨⟨"field required", ?_⟩, ?_⟩ <;>
  · rcases h with h | h | h <;> simp only at h <;> subst h <;>
      cases p <;> cases sc <;> cases mc <;>
      first
        | (cases gc <;> cases ms <;> simp [submitScoreH, parseScoreSubmit])
        | (cases pc <;> cases ms <;> simp [submitScoreH, parseScoreSubmit])
        | (cases pc <;> cases gc <;> simp [submitScoreH, parseScoreSubmit])

/-- A raw submission body omitting `great_count` but otherwise valid. -/
def rawMissingGreat : RawScoreSubmit :=
  { player_id := some "erin", score := some 10, max_combo := some 2,
    perfect_count := some 1, great_count := none, miss_count := some 0 }

/-- Witness for the amended C6: omitting `great_count` over `dbAlice` is
rejected and the store is unchanged. -/
theorem submit_omitted_count_rejected_witness :
    (rawMissingGreat.perfect_count = none ∨
      rawMissingGreat.great_count = none ∨
      rawMissingGreat.miss_count = none) ∧
    (∃ d, (submitScoreH dbAlice 9 rawMissingGreat).1 =
      .error (.validationError d)) ∧
    (submitScoreH dbAlice 9 rawMissingGreat).2 = dbAlice := by
  have h : rawMissingGreat.perfect_count = none ∨
      rawMissingGreat.great_count = none ∨
      rawMissingGreat.miss_count = none := by
    right
    left
    rfl
  exact ⟨h, submit_omitted_count_rejected dbAlice 9 rawMissingGreat h⟩

/-! ### Claim C7 -/

/-- C7: a valid submission inserts exactly one Score row (the history table
and the rest of the store are untouched), and the returned record carries
the assigned id, `played_at` equal to the submission time, and every
submitted field unchanged. -/
theorem submit_valid_inserts_row (db : Db) (now : Rat) (s : ScoreSubmit)
    (h : validScoreSubmit s = true) :
    ∃ (row : Score) (db2 : Db),
      submitScoreH db now (rawOf s) = (.ok row, db2) ∧
      db2.scores = db.scores ++ [row] ∧
      db2.histories = db.histories ∧
      row.id = db.nextScoreId ∧
      row.played_at = now ∧
      row.player_id = s.player_id ∧
      row.score = s.score ∧
      row.max_combo = s.max_combo ∧
      row.perfect_count = s.perfect_count ∧
      row.great_count = s.great_count ∧
      row.miss_count = s.miss_count := by
  refine
    ⟨{ id := db.nextScoreId, player_id := s.player_id, score := s.score,
       max_combo := s.max_combo, perfect_count := s.perfect_count,
       great_count := s.great_count, miss_count := s.miss_count,
       played_at := now },
     { db with
       scores := db.scores ++
         [{ id := db.nextScoreId, player_id := s.player_id, score := s.score,
            max_combo := s.max_combo, perfect_count := s.perfect_count,
            great_count := s.great_count, miss_count := s.miss_count,
            played_at := now }]
       nextScoreId := db.nextScoreId + 1 },
     ?_, rfl, rfl, rfl, rfl, rfl, rfl, rfl, rfl, rfl, rfl⟩
  simp [submitScoreH, parseScoreSubmit, rawOf, h]

/-- A fully valid submission used to witness C7. -/
def validSubmitEx : ScoreSubmit :=
  { player_id := "frank", score := 42, max_combo := 6,
    perfect_count := 4, great_count := 1, miss_count := 1 }

/-- Witness for C7: submitting `validSubmitEx` over `dbAlice` succeeds and
inserts exactly one row. -/
theorem submit_valid_inserts_row_witness :
    validScoreSubmit validSubmitEx = true ∧
    ∃ (row : Score) (db2 : Db),
      submitScoreH dbAlice 11 (rawOf validSubmitEx) = (.ok row, db2) ∧
      db2.scores = dbAlice.scores ++ [row] ∧
      db2.histories = dbAlice.histories ∧
      row.id = dbAlice.nextScoreId ∧
      row.played_at = 11 ∧
      row.player_id = validSubmitEx.player_id ∧
      row.score = validSubmitEx.score ∧
      row.max_combo = validSubmitEx.max_combo ∧
      row.perfect_count = validSubmitEx.perfect_count ∧
      row.great_count = validSubmitEx.great_count ∧
      row.miss_count = validSubmitEx.miss_count := by
  have h : validScoreSubmit validSubmitEx = true := by decide
  exact ⟨h, submit_valid_inserts_row dbAlice 11 validSubmitEx h⟩

/-! ### Claim C8 -/

/-- C8: for the leaderboard and player-history queries a supplied limit
outside `[1, 100]` is rejected as a client error, and an omitted limit
defaults to 10 for the leaderboard and 20 for player history. -/
theorem limit_validation_and_defaults (db : Db) (pid : String) (n : Int)
    (h : n < 1 ∨ 100 < n) :
    (∃ e, (getLeaderboardH db (some n)).1 = .error e) ∧
    (∃ e, (getPlayerHistoryH db pid (some n)).1 = .error e) ∧
    getLeaderboardH db none = (.ok (getLeaderboard db 10), db) ∧
    getPlayerHistoryH db pid none =
      (.ok (getPlayerHistoryList db pid 20), db) := by
  have hno : ¬ (1 ≤ n ∧ n ≤ 100) := by omega
  refine ⟨⟨.validationError "limit out of range", ?_⟩,
    ⟨.validationError "limit out of range", ?_⟩, rfl, rfl⟩ <;>
    simp [getLeaderboardH, getPlayerHistoryH, parseLimit, hno]

/-- Witness for C8 at `n = 0` over `dbBob`. -/
theorem limit_validation_and_defaults_witness :
    ((0 : Int) < 1 ∨ 100 < (0 : Int)) ∧
    (∃ e, (getLeaderboardH dbBob (some 0)).1 = .error e) ∧
    (∃ e, (getPlayerHistoryH dbBob "bob" (some 0)).1 = .error e) ∧
    getLeaderboardH dbBob none = (.ok (getLeaderboard dbBob 10), dbBob) ∧
    getPlayerHistoryH dbBob "bob" none =
      (.ok (getPlayerHistoryList dbBob "bob" 20), dbBob) := by
  have h : (0 : Int) < 1 ∨ 100 < (0 : Int) := by decide
  exact ⟨h, limit_validation_and_defaults dbBob "bob" 0 h⟩

/-! ### Claim C9 -/

/-- C9: each GET handler leaves the store unchanged, and repeating the same
query on the resulting store yields the identical response. -/
theorem get_queries_idempotent (db : Db) (lim : Option Int) (pid : String) :
    (getLeaderboardH db lim).2 = db ∧
    getLeaderboardH (getLeaderboardH db lim).2 lim = getLeaderboardH db lim ∧
    (getPlayerHistoryH db pid lim).2 = db ∧
    getPlayerHistoryH (getPlayerHistoryH db pid lim).2 pid lim =
      getPlayerHistoryH db pid lim ∧
    (getPlayerStatsH db pid).2 = db ∧
    getPlayerStatsH (getPlayerStatsH db pid).2 pid = getPlayerStatsH db pid := by
  have hL : (getLeaderboardH db lim).2 = db := by
    cases hp : parseLimit lim 10 <;> simp [getLeaderboardH, hp]
  have hH : (getPlayerHistoryH db pid lim).2 = db := by
    cases hp : parseLimit lim 20 <;> simp [getPlayerHistoryH, hp]
  refine ⟨hL, ?_, hH, ?_, rfl, rfl⟩
  · rw [hL]
  · rw [hH]

/-! ### Claim C10 -/

/-- C10: the statistics query enforces no constraint on its path parameter:
for every string `pid` (the empty string and over-long strings included)
the handler answers normally with `getPlayerStats`, and when no row matches
the answer is the all-zero statistics, never a validation or not-found
error. -/
theorem stats_no_pid_validation (db : Db) (pid : String) :
    getPlayerStatsH db pid = (.ok (getPlayerStats db pid), db) ∧
    (statsScores db pid = [] → getPlayerStats db pid = zeroStats) :=
  ⟨rfl, fun h => getPlayerStats_of_empty db pid h⟩

/-- A 51-character player id, longer than any id a submission could create. -/
def longPid : String :=
  "aaaaaaaaaaaaaaaaaaaaaaaaaaaaaaaaaaaaaaaaaaaaaaaaaaa"

/-- Witness for C10: on `dbHist` both the empty player id and a
51-character player id get a normal all-zero answer. -/
theorem stats_no_pid_validation_witness :
    longPid.length = 51 ∧
    getPlayerStatsH dbHist "" = (.ok zeroStats, dbHist) ∧
    getPlayerStatsH dbHist longPid = (.ok zeroStats, dbHist) := by
  have h1 := stats_no_pid_validation dbHist ""
  have h2 := stats_no_pid_validation dbHist longPid
  refine ⟨by decide, ?_, ?_⟩
  · rw [h1.1, h1.2 (by simp [statsScores, dbHist])]
  · rw [h2.1, h2.2 (by simp [statsScores, dbHist])]

end AirGuitar
